import Mathlib

/-!
Verification of the grid resource manager of the mcp-ag-grid repository.

The development shallowly embeds the TypeScript `GridManager` class
(grid-manager source) and the statistics helpers of
`src/resources/data-resources.ts` into Lean.  JavaScript values that can
appear in row cells, column-definition properties and method parameters are
modelled by the flat inductive type `Cell`; JS numbers are modelled as
rationals (every numeric value appearing in the verified claims is exactly
representable).  Asynchronous calls against the external rendering surface
(puppeteer page / AG Grid API) and the filesystem are modelled as explicit
`Except String` parameters: one parameter per remote call the source code can
perform, in program order.  Each operation additionally returns the trace of
surface calls it actually performed and the list of websocket notifications
it emitted, so that "before any surface call" and "notification omitted"
style properties are statable.
-/

/-- Cell models a JavaScript value that can occur in a row record, a
column-definition property, or a method parameter.  `nan` is a number whose
`isNaN` test is true; `objref n` is an opaque object reference with identity
`n` (JS object equality is reference equality); `date t` is a `Date` object
with timestamp `t`. -/
inductive Cell : Type where
  | num (q : ℚ)
  | nan
  | str (s : String)
  | cbool (b : Bool)
  | null
  | undef
  | date (t : ℚ)
  | objref (n : ℕ)
  deriving DecidableEq

/-- Results of remote calls and of manager operations live in `Except`;
equality on them is decidable componentwise. -/
instance exceptDecEq {ε α : Type} [DecidableEq ε] [DecidableEq α] :
    DecidableEq (Except ε α)
  | .error e, .error f =>
      if h : e = f then .isTrue (congrArg Except.error h)
      else .isFalse (fun hc => h (Except.error.inj hc))
  | .error _, .ok _ => .isFalse (fun hc => Except.noConfusion hc)
  | .ok _, .error _ => .isFalse (fun hc => Except.noConfusion hc)
  | .ok x, .ok y =>
      if h : x = y then .isTrue (congrArg Except.ok h)
      else .isFalse (fun hc => h (Except.ok.inj hc))

/-- Row models a JS record (a plain object): an association list from
property names to values, in property-insertion order. -/
abbrev Row : Type := List (String × Cell)

/-- getFieldR models JS property access `row[field]`: a missing property
reads as `undefined`. -/
def getFieldR (r : Row) (field : String) : Cell :=
  match r.find? (fun p => p.1 == field) with
  | some p => p.2
  | none => Cell.undef

/-- truthy models JS truthiness of a `Cell`. -/
def Cell.truthy : Cell → Bool
  | .num q => q ≠ 0
  | .nan => false
  | .str s => s ≠ ""
  | .cbool b => b
  | .null => false
  | .undef => false
  | .date _ => true
  | .objref _ => true

/-- isFiniteNumber models `typeof v === 'number' && !isNaN(v)`. -/
def Cell.isFiniteNumber : Cell → Bool
  | .num _ => true
  | _ => false

/-- isStringC models `typeof v === 'string'`. -/
def Cell.isStringC : Cell → Bool
  | .str _ => true
  | _ => false

/-- isBooleanC models `typeof v === 'boolean'`. -/
def Cell.isBooleanC : Cell → Bool
  | .cbool _ => true
  | _ => false

/-- isNullish models `v === null || v === undefined`. -/
def Cell.isNullish : Cell → Bool
  | .null => true
  | .undef => true
  | _ => false

/-- ColumnDefV is the `ColumnDef` interface of the grid manager: each zod/TS
optional property holds the raw JS value found on the object (`undef` when
the property is absent).  Extra passthrough properties are not tracked; the
zod schema never rejects them. -/
structure ColumnDefV where
  field : Cell := Cell.undef
  headerName : Cell := Cell.undef
  width : Cell := Cell.undef
  minWidth : Cell := Cell.undef
  maxWidth : Cell := Cell.undef
  sortable : Cell := Cell.undef
  filter : Cell := Cell.undef
  resizable : Cell := Cell.undef
  type : Cell := Cell.undef
  deriving DecidableEq

/-- GridConfig is the `GridConfig` interface: column definitions, row data
and optional grid options. -/
structure GridConfig where
  columnDefs : List ColumnDefV
  rowData : List Row
  gridOptions : Option Row := none
  deriving DecidableEq

/-- optionalOk models a zod `.optional()` property check: the property is
absent (`undefined`) or satisfies the base check.  `null` fails. -/
def optionalOk (check : Cell → Bool) (v : Cell) : Bool :=
  v = Cell.undef || check v

/-- checkColumnDef is the zod `ColumnDefSchema` of the grid manager:
`field` must be a string; `headerName`/`type` optional strings;
`width`/`minWidth`/`maxWidth` optional numbers; `sortable`/`filter`/
`resizable` optional booleans; `.passthrough()` allows anything else. -/
def checkColumnDef (c : ColumnDefV) : Bool :=
  c.field.isStringC
    && optionalOk Cell.isStringC c.headerName
    && optionalOk Cell.isFiniteNumber c.width
    && optionalOk Cell.isFiniteNumber c.minWidth
    && optionalOk Cell.isFiniteNumber c.maxWidth
    && optionalOk Cell.isBooleanC c.sortable
    && optionalOk Cell.isBooleanC c.filter
    && optionalOk Cell.isBooleanC c.resizable
    && optionalOk Cell.isStringC c.type

/-- validateGridConfig is the zod `GridConfigSchema` of the grid manager:
`columnDefs` is an array of column definitions (no minimum length and no
uniqueness constraint on fields), `rowData` an array of records and
`gridOptions` an optional record.  In this embedding `rowData` and
`gridOptions` are well-typed by construction, exactly as
`z.array(z.record(z.any()))` and `z.record(z.any()).optional()` accept any
array of objects and any optional object. -/
def validateGridConfig (c : GridConfig) : Bool :=
  c.columnDefs.all checkColumnDef

/-- ColState is one entry of the AG Grid `getColumnState()` reading, with the
fields the embedded code inspects: `sort` is `null` (`none`) or a direction
string, `sortIndex` is `null`/absent (`none`) or a number. -/
structure ColState where
  colId : String
  sort : Option String := none
  sortIndex : Option ℚ := none
  deriving DecidableEq

/-- SortEntry is one element of the derived sort state:
`{ colId, sort, sortIndex }` projected from a column-state entry. -/
structure SortEntry where
  colId : String
  sort : Option String
  sortIndex : Option ℚ
  deriving DecidableEq

/-- FilterModel models an AG Grid set-filter model as read back from the
surface: field name to the list of allowed values. -/
abbrev FilterModel : Type := List (String × List Cell)

/-- GridState is the `GridState` interface returned by `getGridState`. -/
structure GridState where
  columnState : List ColState
  filterState : FilterModel
  sortState : List SortEntry
  selectedRows : List Row
  rowCount : ℚ
  displayedRowCount : ℚ
  deriving DecidableEq

/-- SurfaceReadings bundles the four raw readings the single
`page.evaluate` of `getGridState` obtains from the AG Grid API. -/
structure SurfaceReadings where
  columnState : List ColState
  filterModel : FilterModel
  selectedRows : List Row
  displayedRowCount : ℚ
  deriving DecidableEq

/-- GridManagerError is the `GridManagerError` class: message, machine
readable code, optional offending grid id and the message of the optional
underlying cause. -/
structure GridManagerError where
  message : String
  code : String
  gridId : Option String := none
  cause : Option String := none
  deriving DecidableEq

/-- GridInstance is the `GridInstance` record stored in the registry (the
page handle itself is external and represented by the per-call oracles). -/
structure GridInstance where
  id : String
  config : GridConfig
  createdAt : ℚ
  lastUpdated : ℚ
  isDestroyed : Bool
  deriving DecidableEq

/-- Registry is the `grids : Map<string, GridInstance>` of the manager: an
association list in key-insertion order with unique keys. -/
abbrev Registry : Type := List (String × GridInstance)

/-- lookupGrid models `this.grids.get(gridId)`: the value stored at the
first (and, for a map, only) entry with the given key. -/
def lookupGrid : Registry → String → Option GridInstance
  | [], _ => none
  | p :: rest, gridId => if p.1 == gridId then some p.2 else lookupGrid rest gridId

/-- deleteGrid models `this.grids.delete(gridId)`. -/
def deleteGrid (g : Registry) (gridId : String) : Registry :=
  g.filter (fun p => !(p.1 == gridId))

/-- setGrid models `this.grids.set(gridId, inst)` (and equally an in-place
mutation of the stored instance object): an existing key is updated in
place, a new key is appended in insertion order. -/
def setGrid (g : Registry) (gridId : String) (inst : GridInstance) : Registry :=
  if g.any (fun p => p.1 == gridId) then
    g.map (fun p => if p.1 == gridId then (gridId, inst) else p)
  else
    g ++ [(gridId, inst)]

/-- SurfaceCall enumerates the remote calls an operation can issue against
the browser page, in the order the source performs them. -/
inductive SurfaceCall : Type where
  | newPage
  | setViewport
  | setContent
  | waitForReady
  | evalCreateGrid
  | evalUpdateData
  | evalMethod (method : String)
  | evalDisplayedCount
  | evalGetCsv
  | evalReadState
  | evalDestroy
  | closePage
  deriving DecidableEq

/-- WsEvent enumerates the notifications emitted toward the websocket
manager (the state-broadcast sink). -/
inductive WsEvent : Type where
  | onGridCreated (gridId : String) (config : GridConfig) (rows : List Row)
  | onGridDataUpdated (gridId : String) (rows : List Row)
  | onGridFiltered (gridId : String) (filterArg : Cell) (displayedRows : ℚ)
  | onGridSorted (gridId : String) (columnStateArg : Cell)
  | onGridExported (gridId : String) (format : String) (filename : String)
  | removeGrid (gridId : String)
  deriving DecidableEq

/-- Outcome packages the result of one manager operation: the returned value
or thrown error, the registry afterwards, the surface calls performed and
the websocket events emitted. -/
structure Outcome (α : Type) where
  result : Except GridManagerError α
  grids : Registry
  calls : List SurfaceCall
  events : List WsEvent

/-- getGridInstance is the private resolver: unknown id throws
`GRID_NOT_FOUND`, a present-but-destroyed record throws `GRID_DESTROYED`. -/
def getGridInstance (g : Registry) (gridId : String) : Except GridManagerError GridInstance :=
  match lookupGrid g gridId with
  | none =>
      .error { message := "Grid with ID " ++ gridId ++ " not found"
               code := "GRID_NOT_FOUND", gridId := some gridId }
  | some grid =>
      if grid.isDestroyed then
        .error { message := "Grid with ID " ++ gridId ++ " has been destroyed"
                 code := "GRID_DESTROYED", gridId := some gridId }
      else
        .ok grid

/-- getActiveGrids models `getActiveGrids()`: the keys whose stored instance
is not flagged destroyed, in insertion order. -/
def getActiveGrids (g : Registry) : List String :=
  (g.filter (fun p => !p.2.isDestroyed)).map (·.1)

/-- CreateResult is the value returned by the in-page `createAGGrid` call:
a success flag and an optional error message. -/
structure CreateResult where
  success : Bool
  error : Option String := none
  deriving DecidableEq

/-- ExportResult is the `ExportResult` interface of `exportGridData`. -/
structure ExportResult where
  data : String
  format : String
  filename : String
  deriving DecidableEq

/-- createGrid embeds `GridManager.createGrid`.  `isInitialized` is the
`this.isInitialized && this.browser` guard; `freshId` is the value produced
by `generateGridId()` (wall clock and randomness are external); `now` is the
current time; the `Except` parameters are, in program order, the outcomes of
`browser.newPage()`, `page.setViewport(...)`, `loadGridHtml()` (a filesystem
read whose failure message already is the thrown `HTML_LOAD_FAILED` error
message), `page.setContent(...)`, `page.waitForFunction(...)` and the
`page.evaluate(createAGGrid)` call.  Any failure inside the try block is
wrapped as `GRID_CREATION_FAILED`; validation fails earlier with
`INVALID_CONFIG` before any of those calls. -/
def createGrid (isInitialized : Bool) (g : Registry) (config : GridConfig)
    (wsAttached : Bool) (freshId : String) (now : ℚ)
    (newPageR : Except String Unit) (setViewportR : Except String Unit)
    (loadHtmlR : Except String Unit) (setContentR : Except String Unit)
    (waitReadyR : Except String Unit) (evalCreateR : Except String CreateResult) :
    Outcome String :=
  if !isInitialized then
    { result := .error { message := "GridManager not initialized. Call initialize() first."
                         code := "NOT_INITIALIZED" }
      grids := g, calls := [], events := [] }
  else if !validateGridConfig config then
    { result := .error { message := "Invalid grid configuration"
                         code := "INVALID_CONFIG", cause := some "ZodError" }
      grids := g, calls := [], events := [] }
  else
    let creationFailed : String → List SurfaceCall → Outcome String := fun e calls =>
      { result := .error { message := "Failed to create grid"
                           code := "GRID_CREATION_FAILED"
                           gridId := some freshId, cause := some e }
        grids := g, calls := calls, events := [] }
    match newPageR with
    | .error e => creationFailed e [.newPage]
    | .ok _ =>
    match setViewportR with
    | .error e => creationFailed e [.newPage, .setViewport]
    | .ok _ =>
    match loadHtmlR with
    | .error e => creationFailed e [.newPage, .setViewport]
    | .ok _ =>
    match setContentR with
    | .error e => creationFailed e [.newPage, .setViewport, .setContent]
    | .ok _ =>
    match waitReadyR with
    | .error e => creationFailed e [.newPage, .setViewport, .setContent, .waitForReady]
    | .ok _ =>
    match evalCreateR with
    | .error e =>
        creationFailed e [.newPage, .setViewport, .setContent, .waitForReady, .evalCreateGrid]
    | .ok res =>
        if !res.success then
          creationFailed (res.error.getD "Unknown error creating grid")
            [.newPage, .setViewport, .setContent, .waitForReady, .evalCreateGrid]
        else
          let inst : GridInstance :=
            { id := freshId, config := config, createdAt := now
              lastUpdated := now, isDestroyed := false }
          { result := .ok freshId
            grids := setGrid g freshId inst
            calls := [.newPage, .setViewport, .setContent, .waitForReady, .evalCreateGrid]
            events := if wsAttached then [.onGridCreated freshId config config.rowData] else [] }

/-- updateGridData embeds `GridManager.updateGridData`: resolve, push the
full row set (`evalUpdateR` is the `page.evaluate(updateGridData)` outcome),
then update the stored config and timestamp and notify the sink; a surface
failure is wrapped as `UPDATE_DATA_FAILED` with the registry left intact. -/
def updateGridData (g : Registry) (gridId : String) (rowData : List Row)
    (wsAttached : Bool) (now : ℚ) (evalUpdateR : Except String Unit) :
    Outcome Unit :=
  match getGridInstance g gridId with
  | .error e => { result := .error e, grids := g, calls := [], events := [] }
  | .ok grid =>
    match evalUpdateR with
    | .error e =>
        { result := .error { message := "Failed to update grid data"
                             code := "UPDATE_DATA_FAILED"
                             gridId := some gridId, cause := some e }
          grids := g, calls := [.evalUpdateData], events := [] }
    | .ok _ =>
        let grid' := { grid with config := { grid.config with rowData := rowData }
                                 lastUpdated := now }
        { result := .ok ()
          grids := setGrid g gridId grid'
          calls := [.evalUpdateData]
          events := if wsAttached then [.onGridDataUpdated gridId rowData] else [] }

/-- paramsHeadTruthy models the `params && params[0]` guard of
`executeGridMethod`. -/
def paramsHeadTruthy : Option (List Cell) → Bool
  | some (p :: _) => p.truthy
  | _ => false

/-- paramsHead is `params[0]` (undefined when absent). -/
def paramsHead : Option (List Cell) → Cell
  | some (p :: _) => p
  | _ => Cell.undef

/-- executeGridMethod embeds `GridManager.executeGridMethod`: resolve,
invoke the named method (`evalMethodR`), then — inside the same try block —
for `setFilterModel` with a truthy first parameter perform a second
`page.evaluate` reading the displayed row count (`evalDisplayedR`) and emit
`onGridFiltered`; for `applyColumnState` with a truthy first parameter emit
`onGridSorted` with no extra read.  Every failure inside the try block,
including a failure of the displayed-count read, is wrapped as
`METHOD_EXECUTION_FAILED`. -/
def executeGridMethod (g : Registry) (gridId : String) (method : String)
    (params : Option (List Cell)) (wsAttached : Bool)
    (evalMethodR : Except String Cell) (evalDisplayedR : Except String ℚ) :
    Outcome Cell :=
  match getGridInstance g gridId with
  | .error e => { result := .error e, grids := g, calls := [], events := [] }
  | .ok _ =>
    let methodFailed : String → List SurfaceCall → Outcome Cell := fun e calls =>
      { result := .error { message := "Failed to execute grid method: " ++ method
                           code := "METHOD_EXECUTION_FAILED"
                           gridId := some gridId, cause := some e }
        grids := g, calls := calls, events := [] }
    match evalMethodR with
    | .error e => methodFailed e [.evalMethod method]
    | .ok value =>
      if wsAttached && method == "setFilterModel" && paramsHeadTruthy params then
        match evalDisplayedR with
        | .error e => methodFailed e [.evalMethod method, .evalDisplayedCount]
        | .ok displayedRows =>
            { result := .ok value, grids := g
              calls := [.evalMethod method, .evalDisplayedCount]
              events := [.onGridFiltered gridId (paramsHead params) displayedRows] }
      else if wsAttached && method == "applyColumnState" && paramsHeadTruthy params then
        { result := .ok value, grids := g
          calls := [.evalMethod method]
          events := [.onGridSorted gridId (paramsHead params)] }
      else
        { result := .ok value, grids := g
          calls := [.evalMethod method], events := [] }

/-- exportGridData embeds `GridManager.exportGridData`: resolve, validate the
format against the closed zod enum csv/excel (failing with
`INVALID_EXPORT_FORMAT` before any surface call), then obtain the CSV
serialization from the surface (`evalCsvR`; both formats use the same
`getDataAsCsv` call), build the filename from the sanitized timestamp string
and notify the sink; surface failures are wrapped as `EXPORT_FAILED`. -/
def exportGridData (g : Registry) (gridId : String) (format : String)
    (wsAttached : Bool) (timestamp : String) (evalCsvR : Except String String) :
    Outcome ExportResult :=
  match getGridInstance g gridId with
  | .error e => { result := .error e, grids := g, calls := [], events := [] }
  | .ok _ =>
    if !(format == "csv" || format == "excel") then
      { result := .error { message := "Invalid export format"
                           code := "INVALID_EXPORT_FORMAT"
                           gridId := some gridId, cause := some "ZodError" }
        grids := g, calls := [], events := [] }
    else
      let filename := "grid-export-" ++ gridId ++ "-" ++ timestamp ++ "." ++ format
      match evalCsvR with
      | .error e =>
          { result := .error { message := "Failed to export grid data as " ++ format
                               code := "EXPORT_FAILED"
                               gridId := some gridId, cause := some e }
            grids := g, calls := [.evalGetCsv], events := [] }
      | .ok data =>
          { result := .ok { data := data, format := format, filename := filename }
            grids := g, calls := [.evalGetCsv]
            events := if wsAttached then [.onGridExported gridId format filename] else [] }

/-- sortKey is the comparator key of the in-page sort:
`(col.sortIndex || 0)`. -/
def sortKey (e : SortEntry) : ℚ :=
  e.sortIndex.getD 0

/-- sortLE is the non-strict ordering induced by the JS comparator
`(a.sortIndex || 0) - (b.sortIndex || 0)`. -/
def sortLE (a b : SortEntry) : Prop :=
  sortKey a ≤ sortKey b

instance : DecidableRel sortLE := fun a b => by
  unfold sortLE
  infer_instance

instance : IsTotal SortEntry sortLE :=
  ⟨fun a b => le_total (sortKey a) (sortKey b)⟩

instance : IsTrans SortEntry sortLE :=
  ⟨fun _ _ _ h1 h2 => le_trans h1 h2⟩

/-- sortSource embeds the first stage of the in-page derivation of the sort
state inside `getGridState`: keep the column-state entries whose `sort` is
non-null and project them to `{ colId, sort, sortIndex }`. -/
def sortSource (cs : List ColState) : List SortEntry :=
  (cs.filter (fun c => c.sort.isSome)).map
    (fun c => { colId := c.colId, sort := c.sort, sortIndex := c.sortIndex })

/-- sortStateOf embeds the second stage: sort the projection by
`(a.sortIndex || 0) - (b.sortIndex || 0)` with `Array.prototype.sort`, which
the ES specification requires to be stable; a stable sort for this total
preorder is `List.insertionSort` with the non-strict key order. -/
def sortStateOf (cs : List ColState) : List SortEntry :=
  List.insertionSort sortLE (sortSource cs)

/-- getGridState embeds `GridManager.getGridState`: resolve, then perform a
single `page.evaluate` that reads the column state, filter model, selected
rows and displayed row count and derives the sort state (`readR` is that
call's outcome); both `rowCount` and `displayedRowCount` of the returned
state are set to the `getDisplayedRowCount()` reading.  A read failure is
wrapped as `GET_STATE_FAILED`.  The registry is never modified. -/
def getGridState (g : Registry) (gridId : String)
    (readR : Except String SurfaceReadings) : Outcome GridState :=
  match getGridInstance g gridId with
  | .error e => { result := .error e, grids := g, calls := [], events := [] }
  | .ok _ =>
    match readR with
    | .error e =>
        { result := .error { message := "Failed to get grid state"
                             code := "GET_STATE_FAILED"
                             gridId := some gridId, cause := some e }
          grids := g, calls := [.evalReadState], events := [] }
    | .ok r =>
        { result := .ok { columnState := r.columnState
                          filterState := r.filterModel
                          sortState := sortStateOf r.columnState
                          selectedRows := r.selectedRows
                          rowCount := r.displayedRowCount
                          displayedRowCount := r.displayedRowCount }
          grids := g, calls := [.evalReadState], events := [] }

/-- destroyGrid embeds `GridManager.destroyGrid`: an unknown id throws
`GRID_NOT_FOUND`; otherwise, for a not-yet-destroyed record, the in-page
`gridApi.destroy()` call (`evalDestroyR`) and then `page.close()`
(`closePageR`) are performed, the destroyed flag is set and the record is
removed from the map, and the sink is told to drop the grid.  A failure of
either remote call jumps to the catch block, which rethrows as
`DESTROY_FAILED` — the statements that mark the record destroyed and delete
it from the map are then never reached, so the registry is left unchanged. -/
def destroyGrid (g : Registry) (gridId : String) (wsAttached : Bool)
    (evalDestroyR : Except String Unit) (closePageR : Except String Unit) :
    Outcome Unit :=
  match lookupGrid g gridId with
  | none =>
      { result := .error { message := "Grid with ID " ++ gridId ++ " not found"
                           code := "GRID_NOT_FOUND", gridId := some gridId }
        grids := g, calls := [], events := [] }
  | some grid =>
    let destroyFailed : String → List SurfaceCall → Outcome Unit := fun e calls =>
      { result := .error { message := "Failed to destroy grid"
                           code := "DESTROY_FAILED"
                           gridId := some gridId, cause := some e }
        grids := g, calls := calls, events := [] }
    if grid.isDestroyed then
      { result := .ok (), grids := deleteGrid g gridId, calls := []
        events := if wsAttached then [.removeGrid gridId] else [] }
    else
      match evalDestroyR with
      | .error e => destroyFailed e [.evalDestroy]
      | .ok _ =>
        match closePageR with
        | .error e => destroyFailed e [.evalDestroy, .closePage]
        | .ok _ =>
            { result := .ok (), grids := deleteGrid g gridId
              calls := [.evalDestroy, .closePage]
              events := if wsAttached then [.removeGrid gridId] else [] }

/-- DestroyOracle bundles the two remote-call outcomes a `destroyGrid` call
on one grid can observe during cleanup. -/
structure DestroyOracle where
  evalDestroy : Except String Unit
  closePage : Except String Unit

/-- CleanupOut is what a completed `cleanup()` leaves behind: the remaining
registry, the surface calls performed, the sink notifications emitted and
the error messages logged (per-grid destroy failures and a browser-close
failure are logged, not rethrown). -/
structure CleanupOut where
  grids : Registry
  calls : List SurfaceCall
  events : List WsEvent
  logs : List String
  deriving DecidableEq

/-- cleanupDestroyAll is the destroy loop of `cleanup()`: it iterates over
the given ids, calling `destroyGrid` on each and logging (never
propagating) per-grid failures. -/
def cleanupDestroyAll (wsAttached : Bool) (oracle : String → DestroyOracle) :
    List String → Registry → Registry × List SurfaceCall × List WsEvent × List String
  | [], g => (g, [], [], [])
  | id :: rest, g =>
      let out := destroyGrid g id wsAttached (oracle id).evalDestroy (oracle id).closePage
      let log := match out.result with
        | .error e => ["Error destroying grid " ++ id ++ ": " ++ e.message]
        | .ok _ => []
      let (g', cs, es, ls) := cleanupDestroyAll wsAttached oracle rest out.grids
      (g', out.calls ++ cs, out.events ++ es, log ++ ls)

/-- cleanup embeds `GridManager.cleanup`: destroy every grid whose id is in
the map at entry, tolerating (logging) per-grid failures, then close the
browser if one is present, also merely logging a close failure.  Every
`await` in the source body sits inside a try/catch, so the function always
resolves; the `Except` result type records that the source could in
principle throw, and the definition shows it never does. -/
def cleanup (g : Registry) (wsAttached : Bool) (oracle : String → DestroyOracle)
    (browserPresent : Bool) (closeBrowserR : Except String Unit) :
    Except GridManagerError CleanupOut :=
  let ids := g.map (·.1)
  let (g', cs, es, ls) := cleanupDestroyAll wsAttached oracle ids g
  let closeLogs :=
    if browserPresent then
      match closeBrowserR with
      | .error e => ["Error closing browser: " ++ e]
      | .ok _ => []
    else []
  .ok { grids := g', calls := cs, events := es, logs := ls ++ closeLogs }

/-- isDateLike models the date test of `inferDataType`:
`value instanceof Date || (typeof value === 'string' && !isNaN(Date.parse(value)))`.
Date-string parseability is an external runtime facility, supplied as the
predicate `dateParse`. -/
def isDateLike (dateParse : String → Bool) : Cell → Bool
  | .date _ => true
  | .str s => dateParse s
  | _ => false

/-- inferDataType embeds `inferDataType` of data-resources: empty input is
`unknown`; otherwise the first 10 values are sampled and classified by an
if/else chain (finite number, then boolean, then date-like, then string);
the category chain predicates are mutually exclusive on `Cell`, so the loop
counters equal plain counts.  Each threshold comparison is strict:
`count / total > 0.8`.  With `total ≤ 10` the double-precision comparison of
the source agrees exactly with this rational one. -/
def inferDataType (dateParse : String → Bool) (values : List Cell) : String :=
  if values.isEmpty then "unknown"
  else
    let sample := values.take 10
    let total : ℕ := sample.length
    let numberCount : ℕ := sample.countP Cell.isFiniteNumber
    let booleanCount : ℕ := sample.countP Cell.isBooleanC
    let dateCount : ℕ := sample.countP (isDateLike dateParse)
    if (numberCount : ℚ) / (total : ℚ) > 4/5 then "number"
    else if (booleanCount : ℚ) / (total : ℚ) > 4/5 then "boolean"
    else if (dateCount : ℚ) / (total : ℚ) > 4/5 then "date"
    else "text"

/-- dedupKeepFirst models `[...new Set(values)]`: duplicates (SameValueZero,
which on `Cell` is structural equality, with `objref` giving reference
identity) are dropped, keeping the first occurrence, in insertion order. -/
def dedupKeepFirst (l : List Cell) : List Cell :=
  l.foldl (fun acc x => if acc.contains x then acc else acc ++ [x]) []

/-- ColumnStats is the `ColumnStats` interface of data-resources; optional
aggregate fields are `none` when the source leaves them undefined. -/
structure ColumnStats where
  field : String
  type : String
  nullCount : ℕ
  uniqueCount : ℕ
  sampleValues : List Cell
  min : Option ℚ := none
  max : Option ℚ := none
  mean : Option ℚ := none
  median : Option ℚ := none
  avgLength : Option ℚ := none
  maxLength : Option ℚ := none
  minLength : Option ℚ := none
  deriving DecidableEq

/-- listMin folds `Math.min(...values)` over a nonempty list given as head
and tail. -/
def listMin (q : ℚ) (qs : List ℚ) : ℚ :=
  qs.foldl min q

/-- listMax folds `Math.max(...values)` over a nonempty list given as head
and tail. -/
def listMax (q : ℚ) (qs : List ℚ) : ℚ :=
  qs.foldl max q

/-- numericOf extracts the numeric values:
`values.filter(val => typeof val === 'number' && !isNaN(val))`. -/
def numericOf (values : List Cell) : List ℚ :=
  values.filterMap (fun v => match v with | .num q => some q | _ => none)

/-- stringsOf extracts the string values:
`values.filter(val => typeof val === 'string')`. -/
def stringsOf (values : List Cell) : List String :=
  values.filterMap (fun v => match v with | .str s => some s | _ => none)

/-- medianOf embeds the median computation: sort ascending, take the middle
element, averaging the two middle elements for even length. -/
def medianOf (nums : List ℚ) : ℚ :=
  let sorted := List.insertionSort (· ≤ ·) nums
  let mid := sorted.length / 2
  if sorted.length % 2 == 0 then (sorted.getD (mid - 1) 0 + sorted.getD mid 0) / 2
  else sorted.getD mid 0

/-- analyzeColumnData embeds `analyzeColumnData` of data-resources: the
column's values are the non-null, non-undefined cells of `row[field]` over
all rows; `nullCount` is the number of remaining rows; the type is the
declared `columnDef.type` when truthy (the TS type makes it a string or
absent) and otherwise inferred; numeric aggregates are attached when the
type is `number` and string-length aggregates when it is `text`. -/
def analyzeColumnData (dateParse : String → Bool) (data : List Row)
    (field : String) (columnDef : ColumnDefV) : ColumnStats :=
  let values := (data.map (fun r => getFieldR r field)).filter (fun v => !v.isNullish)
  let nullCount := data.length - values.length
  let uniqueValues := dedupKeepFirst values
  let ty : String :=
    match columnDef.type with
    | .str s => if s = "" then inferDataType dateParse values else s
    | _ => inferDataType dateParse values
  let base : ColumnStats :=
    { field := field, type := ty, nullCount := nullCount
      uniqueCount := uniqueValues.length, sampleValues := uniqueValues.take 5 }
  let withNum : ColumnStats :=
    if ty = "number" && !values.isEmpty then
      match numericOf values with
      | [] => base
      | q :: qs =>
          { base with
              min := some (listMin q qs)
              max := some (listMax q qs)
              mean := some ((q :: qs).sum / ((q :: qs).length : ℚ))
              median := some (medianOf (q :: qs)) }
    else base
  if ty = "text" && !values.isEmpty then
    match stringsOf values with
    | [] => withNum
    | s :: ss =>
        let lengths : List ℚ := (s :: ss).map (fun t => (t.length : ℚ))
        { withNum with
            minLength := some (listMin (lengths.headD 0) lengths.tail)
            maxLength := some (listMax (lengths.headD 0) lengths.tail)
            avgLength := some (lengths.sum / (lengths.length : ℚ)) }
  else withNum

/-- jsRound2 models `Math.round(x * 100) / 100` (JS `Math.round` rounds
half-integers toward positive infinity). -/
def jsRound2 (q : ℚ) : ℚ :=
  ((⌊q * 100 + 1/2⌋ : ℤ) : ℚ) / 100

/-- bumpCount models `acc[k] = (acc[k] || 0) + 1` on a plain object used as
a counter map, in first-seen key order. -/
def bumpCount (l : List (String × ℕ)) (k : String) : List (String × ℕ) :=
  if l.any (fun p => p.1 == k) then
    l.map (fun p => if p.1 == k then (p.1, p.2 + 1) else p)
  else l ++ [(k, 1)]

/-- fieldStr is the field name of a column definition (a string in every
valid configuration; a defensive empty string otherwise, unreachable after
validation). -/
def fieldStr (c : ColumnDefV) : String :=
  match c.field with
  | .str s => s
  | _ => ""

/-- GridSummaryStats is the `GridSummaryStats` interface (the wall-clock
`generatedAt` string is external and omitted). -/
structure GridSummaryStats where
  gridId : String
  totalRows : ℕ
  totalColumns : ℕ
  columnStats : List ColumnStats
  dataTypes : List (String × ℕ)
  completeness : ℚ
  deriving DecidableEq

/-- summaryStatsCore embeds the pure tail of `generateGridSummary`: analyze
each declared column over the row snapshot, tally the type distribution,
and compute the completeness percentage
`totalCells > 0 ? ((totalCells - nullCells) / totalCells) * 100 : 0`,
rounded to two decimals. -/
def summaryStatsCore (dateParse : String → Bool) (gridId : String)
    (columnDefs : List ColumnDefV) (rowData : List Row) : GridSummaryStats :=
  let columnStats := columnDefs.map (fun colDef =>
    analyzeColumnData dateParse rowData (fieldStr colDef) colDef)
  let dataTypes := columnStats.foldl (fun acc st => bumpCount acc st.type) []
  let totalCells : ℕ := rowData.length * columnStats.length
  let nullCells : ℕ := (columnStats.map (·.nullCount)).sum
  let completeness : ℚ :=
    if 0 < totalCells then (((totalCells : ℚ) - (nullCells : ℚ)) / (totalCells : ℚ)) * 100
    else 0
  { gridId := gridId
    totalRows := rowData.length
    totalColumns := columnStats.length
    columnStats := columnStats
    dataTypes := dataTypes
    completeness := jsRound2 completeness }

/-- generateGridSummary embeds `generateGridSummary` of data-resources: the
grid is resolved (`getGridInfo` path), the grid state is read (its value is
unused but its failure aborts), the current rows are fetched through the
`getRenderedNodes` escape hatch (`renderedNodesR`; `some rows` models a
truthy node array mapped over `node.data`, `none` a falsy result, causing
the fallback to the stored `config.rowData`), and the statistics are
computed; every failure is wrapped as `SUMMARY_GENERATION_FAILED`. -/
def generateGridSummary (g : Registry) (gridId : String)
    (dateParse : String → Bool) (stateReadR : Except String SurfaceReadings)
    (renderedNodesR : Except String (Option (List Row))) :
    Except GridManagerError GridSummaryStats :=
  let summaryFailed : String → Except GridManagerError GridSummaryStats := fun e =>
    .error { message := "Failed to generate grid summary"
             code := "SUMMARY_GENERATION_FAILED"
             gridId := some gridId, cause := some e }
  match getGridInstance g gridId with
  | .error e => summaryFailed e.message
  | .ok grid =>
    match (getGridState g gridId stateReadR).result with
    | .error e => summaryFailed e.message
    | .ok _ =>
      match (executeGridMethod g gridId "getRenderedNodes" none false
              (renderedNodesR.map (fun _ => Cell.objref 0)) (.ok 0)).result with
      | .error e => summaryFailed e.message
      | .ok _ =>
        match renderedNodesR with
        | .error e => summaryFailed e
        | .ok currentData =>
          let rowData := match currentData with
            | some nodes => nodes
            | none => grid.config.rowData
          .ok (summaryStatsCore dateParse gridId grid.config.columnDefs rowData)

/-- SurfaceState — Modelled from the spec: the rendering surface (the
browser-side AG Grid widget) is an external collaborator of the repository;
per §3/§6 of the specification it holds the row set and the active filter
predicate set, and its `getDisplayedRowCount` reading is the post-filter
row count, while `setRowData` is a full row replace that leaves the filter
model in place.  The filter model is the set-filter shape used throughout
the repository: field name to allowed values, with an empty model filtering
nothing. -/
structure SurfaceState where
  rows : List Row
  filterModel : FilterModel
  columnState : List ColState
  selectedRows : List Row

/-- rowPassesFilter — Modelled from the spec: a row is displayed iff for
every filter entry the row's value for that field is among the allowed
values. -/
def rowPassesFilter (fm : FilterModel) (r : Row) : Bool :=
  fm.all (fun e => e.2.contains (getFieldR r e.1))

/-- displayedRowsOf — Modelled from the spec: the post-filter view of the
surface's rows. -/
def displayedRowsOf (s : SurfaceState) : List Row :=
  s.rows.filter (rowPassesFilter s.filterModel)

/-- surfaceReadingsOf — Modelled from the spec: the readings the
`getGridState` evaluate obtains from a surface in state `s`;
`getDisplayedRowCount()` returns the number of displayed rows. -/
def surfaceReadingsOf (s : SurfaceState) : SurfaceReadings :=
  { columnState := s.columnState
    filterModel := s.filterModel
    selectedRows := s.selectedRows
    displayedRowCount := ((displayedRowsOf s).length : ℚ) }

/-- surfaceSetRowData — Modelled from the spec: `setRowData` replaces the
full row set and nothing else. -/
def surfaceSetRowData (s : SurfaceState) (rows : List Row) : SurfaceState :=
  { s with rows := rows }

/-- notFoundError is the `GRID_NOT_FOUND` error raised for an id absent from
the registry. -/
def notFoundError (gridId : String) : GridManagerError :=
  { message := "Grid with ID " ++ gridId ++ " not found"
    code := "GRID_NOT_FOUND", gridId := some gridId }

/-- destroyedError is the `GRID_DESTROYED` error raised for an id whose
stored record carries the destroyed flag. -/
def destroyedError (gridId : String) : GridManagerError :=
  { message := "Grid with ID " ++ gridId ++ " has been destroyed"
    code := "GRID_DESTROYED", gridId := some gridId }

/-- nullsInColumn states, in the specification's terms, the number k of
null/undefined cells a column contributes: the rows whose value at the
column's field is null or undefined. -/
def nullsInColumn (rowData : List Row) (colDef : ColumnDefV) : ℕ :=
  (rowData.filter (fun r => (getFieldR r (fieldStr colDef)).isNullish)).length

/-- totalNullCells states the specification's totalNulls: the sum of the
per-column null counts. -/
def totalNullCells (rowData : List Row) (columnDefs : List ColumnDefV) : ℕ :=
  (columnDefs.map (nullsInColumn rowData)).sum

/-- demoInstance is a concrete live grid instance used by the concrete
counterexamples and witnesses. -/
def demoInstance : GridInstance :=
  { id := "g1", config := { columnDefs := [{ field := Cell.str "a" }], rowData := [] }
    createdAt := 0, lastUpdated := 0, isDestroyed := false }

/-- demoRegistry is a registry holding the single live grid g1. -/
def demoRegistry : Registry := [("g1", demoInstance)]

/-- secondInstance is a second concrete live grid instance. -/
def secondInstance : GridInstance :=
  { id := "g2", config := { columnDefs := [{ field := Cell.str "b" }], rowData := [] }
    createdAt := 0, lastUpdated := 0, isDestroyed := false }

/-- twoGridRegistry holds the two live grids g1 and g2, in insertion order. -/
def twoGridRegistry : Registry := [("g1", demoInstance), ("g2", secondInstance)]

/-- cfgDupFields is a configuration whose two columns share the field
identifier a. -/
def cfgDupFields : GridConfig :=
  { columnDefs := [{ field := Cell.str "a" }, { field := Cell.str "a" }], rowData := [] }

/-- cfgNoCols is a configuration with an empty column list. -/
def cfgNoCols : GridConfig :=
  { columnDefs := [], rowData := [] }

/-- cleanupFailFirstOracle makes the in-page destroy of g1 fail and every
other remote call succeed. -/
def cleanupFailFirstOracle (gridId : String) : DestroyOracle :=
  if gridId == "g1" then { evalDestroy := .error "boom", closePage := .ok () }
  else { evalDestroy := .ok (), closePage := .ok () }

/-- c8Sample is a 10-value sample with exactly 8 numeric values. -/
def c8Sample : List Cell :=
  [Cell.num 1, Cell.num 2, Cell.num 3, Cell.num 4, Cell.num 5, Cell.num 6,
   Cell.num 7, Cell.num 8, Cell.cbool true, Cell.cbool false]

/-- priceCol is the column definition of the concrete summarize scenario:
field price, no declared type. -/
def priceCol : ColumnDefV := { field := Cell.str "price" }

/-- priceRows is the row set of the concrete summarize scenario. -/
def priceRows : List Row :=
  [[("price", Cell.num 10)], [("price", Cell.null)], [("price", Cell.num 30)]]

/-- filteredSurface is a surface holding three rows of which a set filter on
status keeps exactly one. -/
def filteredSurface : SurfaceState :=
  { rows := [[("status", Cell.str "completed")], [("status", Cell.str "pending")],
             [("status", Cell.str "pending")]]
    filterModel := [("status", [Cell.str "completed"])]
    columnState := [], selectedRows := [] }

/-- tiedColumnState is a column-state reading with one unsorted column and
three sorted ones, two of which tie on the sort index. -/
def tiedColumnState : List ColState :=
  [{ colId := "a", sort := none, sortIndex := none },
   { colId := "b", sort := some "asc", sortIndex := some 1 },
   { colId := "c", sort := some "desc", sortIndex := some 0 },
   { colId := "d", sort := some "asc", sortIndex := some 1 }]


theorem lookupGrid_deleteGrid_self (g : Registry) (gridId : String) :
    lookupGrid (deleteGrid g gridId) gridId = none := by
  induction g with
  | nil => rfl
  | cons p rest ih =>
      by_cases h : p.1 == gridId
      · simpa [deleteGrid, h] using ih
      · simpa [deleteGrid, lookupGrid, h] using ih

theorem lookupGrid_deleteGrid_ne (g : Registry) (gridId j : String) (h : j ≠ gridId) :
    lookupGrid (deleteGrid g gridId) j = lookupGrid g j := by
  induction g with
  | nil => rfl
  | cons p rest ih =>
      by_cases h1 : p.1 == gridId
      · have h2 : (p.1 == j) = false := by
          simp only [beq_iff_eq] at h1
          simp only [beq_eq_false_iff_ne, ne_eq, h1]
          exact fun hc => h hc.symm
        simpa [deleteGrid, lookupGrid, h1, h2] using ih
      · by_cases h2 : p.1 == j
        · simp [deleteGrid, lookupGrid, h1, h2]
        · simpa [deleteGrid, lookupGrid, h1, h2] using ih

theorem lookupGrid_setGrid_self (g : Registry) (gridId : String) (inst : GridInstance) :
    lookupGrid (setGrid g gridId inst) gridId = some inst := by
  unfold setGrid
  by_cases hany : g.any (fun p => p.1 == gridId)
  · simp only [hany, if_true]
    induction g with
    | nil => simp at hany
    | cons p rest ih =>
        by_cases h1 : p.1 == gridId
        · simp [lookupGrid, h1]
        · simp only [List.any_cons, h1, Bool.false_or] at hany
          simpa [lookupGrid, h1] using ih hany
  · simp only [hany, if_false]
    induction g with
    | nil => simp [lookupGrid]
    | cons p rest ih =>
        simp only [List.any_cons, Bool.or_eq_true, not_or] at hany
        have h1 : (p.1 == gridId) = false := by
          cases hb : (p.1 == gridId) with
          | true => exact absurd hb hany.1
          | false => rfl
        simp only [List.cons_append, lookupGrid, h1, if_false]
        exact ih (by simpa using hany.2)

theorem mem_getActiveGrids_of_lookup (g : Registry) (gridId : String)
    (inst : GridInstance) (h : lookupGrid g gridId = some inst)
    (hd : inst.isDestroyed = false) : gridId ∈ getActiveGrids g := by
  induction g with
  | nil => simp [lookupGrid] at h
  | cons p rest ih =>
      by_cases h1 : p.1 == gridId
      · simp only [lookupGrid, h1, if_true, Option.some.injEq] at h
        have hp1 : p.1 = gridId := beq_iff_eq.mp h1
        have : (p.2.isDestroyed : Bool) = false := h ▸ hd
        simp [getActiveGrids, List.filter_cons, this, hp1]
      · simp only [lookupGrid, h1, if_false] at h
        have hmem := ih h
        by_cases h2 : p.2.isDestroyed
        · simpa [getActiveGrids, List.filter_cons, h2] using hmem
        · simp only [Bool.not_eq_true] at h2
          simp only [getActiveGrids, List.filter_cons, h2, Bool.not_false, if_true,
            List.map_cons, List.mem_cons]
          exact Or.inr (by simpa [getActiveGrids] using hmem)

theorem not_mem_getActiveGrids_of_lookup_none (g : Registry) (gridId : String)
    (h : lookupGrid g gridId = none) : gridId ∉ getActiveGrids g := by
  induction g with
  | nil => simp [getActiveGrids]
  | cons p rest ih =>
      by_cases h1 : p.1 == gridId
      · simp [lookupGrid, h1] at h
      · simp only [lookupGrid, h1, if_false] at h
        have hne : p.1 ≠ gridId := by
          intro hc
          simp [hc] at h1
        by_cases h2 : p.2.isDestroyed
        · simpa [getActiveGrids, List.filter_cons, h2] using ih h
        · simp only [Bool.not_eq_true] at h2
          simp only [getActiveGrids, List.filter_cons, h2, Bool.not_false, if_true,
            List.map_cons, List.mem_cons, not_or]
          exact ⟨fun hc => hne hc.symm, by simpa [getActiveGrids] using ih h⟩

theorem destroyGrid_notFound (g : Registry) (gridId : String) (ws : Bool)
    (o1 o2 : Except String Unit) (h : lookupGrid g gridId = none) :
    destroyGrid g gridId ws o1 o2 =
      { result := .error (notFoundError gridId), grids := g, calls := [], events := [] } := by
  unfold destroyGrid
  rw [h]
  rfl

theorem destroyGrid_evalFail (g : Registry) (gridId : String) (ws : Bool)
    (inst : GridInstance) (e : String) (o2 : Except String Unit)
    (h : lookupGrid g gridId = some inst) (hd : inst.isDestroyed = false) :
    destroyGrid g gridId ws (.error e) o2 =
      { result := .error { message := "Failed to destroy grid", code := "DESTROY_FAILED"
                           gridId := some gridId, cause := some e }
        grids := g, calls := [.evalDestroy], events := [] } := by
  unfold destroyGrid
  rw [h]
  simp [hd]

theorem destroyGrid_closeFail (g : Registry) (gridId : String) (ws : Bool)
    (inst : GridInstance) (e : String)
    (h : lookupGrid g gridId = some inst) (hd : inst.isDestroyed = false) :
    destroyGrid g gridId ws (.ok ()) (.error e) =
      { result := .error { message := "Failed to destroy grid", code := "DESTROY_FAILED"
                           gridId := some gridId, cause := some e }
        grids := g, calls := [.evalDestroy, .closePage], events := [] } := by
  unfold destroyGrid
  rw [h]
  simp [hd]

theorem destroyGrid_ok (g : Registry) (gridId : String) (ws : Bool)
    (inst : GridInstance)
    (h : lookupGrid g gridId = some inst) (hd : inst.isDestroyed = false) :
    destroyGrid g gridId ws (.ok ()) (.ok ()) =
      { result := .ok (), grids := deleteGrid g gridId
        calls := [.evalDestroy, .closePage]
        events := if ws then [.removeGrid gridId] else [] } := by
  unfold destroyGrid
  rw [h]
  simp [hd]

theorem destroyGrid_lookup_ne (g : Registry) (gridId j : String) (ws : Bool)
    (o1 o2 : Except String Unit) (h : j ≠ gridId) :
    lookupGrid (destroyGrid g gridId ws o1 o2).grids j = lookupGrid g j := by
  unfold destroyGrid
  cases hl : lookupGrid g gridId with
  | none => rfl
  | some inst =>
      by_cases hd : inst.isDestroyed
      · simp only [hd, if_true]
        exact lookupGrid_deleteGrid_ne g gridId j h
      · simp only [hd, if_false]
        cases o1 with
        | error e => rfl
        | ok u =>
            cases u
            cases o2 with
            | error e => rfl
            | ok u2 =>
                cases u2
                exact lookupGrid_deleteGrid_ne g gridId j h

theorem cleanupDestroyAll_lookup_none (ws : Bool) (oracle : String → DestroyOracle)
    (ids : List String) (g : Registry) (gridId : String)
    (h : lookupGrid g gridId = none) :
    lookupGrid (cleanupDestroyAll ws oracle ids g).1 gridId = none := by
  induction ids generalizing g with
  | nil => simpa [cleanupDestroyAll]
  | cons id rest ih =>
      simp only [cleanupDestroyAll]
      by_cases hij : gridId = id
      · subst hij
        rw [destroyGrid_notFound g gridId ws _ _ h]
        exact ih g h
      · have := destroyGrid_lookup_ne g id gridId ws (oracle id).evalDestroy (oracle id).closePage hij
        exact ih _ (this.trans h)

theorem cleanupDestroyAll_lookup_of_evalFail (ws : Bool) (oracle : String → DestroyOracle)
    (ids : List String) (g : Registry) (gridId : String) (inst : GridInstance) (e : String)
    (h : lookupGrid g gridId = some inst) (hd : inst.isDestroyed = false)
    (he : (oracle gridId).evalDestroy = .error e) :
    lookupGrid (cleanupDestroyAll ws oracle ids g).1 gridId = some inst := by
  induction ids generalizing g with
  | nil => simpa [cleanupDestroyAll]
  | cons id rest ih =>
      simp only [cleanupDestroyAll]
      by_cases hij : id = gridId
      · subst hij
        rw [he, destroyGrid_evalFail g id ws inst e _ h hd]
        exact ih g h
      · have hne : gridId ≠ id := fun hc => hij hc.symm
        have := destroyGrid_lookup_ne g id gridId ws (oracle id).evalDestroy (oracle id).closePage hne
        exact ih _ (this.trans h)

theorem cleanupDestroyAll_lookup_removed (ws : Bool) (oracle : String → DestroyOracle)
    (ids : List String) (g : Registry) (gridId : String)
    (hmem : gridId ∈ ids)
    (h1 : (oracle gridId).evalDestroy = .ok ())
    (h2 : (oracle gridId).closePage = .ok ()) :
    lookupGrid (cleanupDestroyAll ws oracle ids g).1 gridId = none := by
  induction ids generalizing g with
  | nil => simp at hmem
  | cons id rest ih =>
      simp only [cleanupDestroyAll]
      by_cases hij : id = gridId
      · subst hij
        cases hl : lookupGrid g id with
        | none =>
            rw [destroyGrid_notFound g id ws _ _ hl]
            exact cleanupDestroyAll_lookup_none ws oracle rest g id hl
        | some inst =>
            by_cases hd : inst.isDestroyed
            · have hnone : lookupGrid (destroyGrid g id ws (oracle id).evalDestroy
                  (oracle id).closePage).grids id = none := by
                unfold destroyGrid
                rw [hl]
                simp only [hd, if_true]
                exact lookupGrid_deleteGrid_self g id
              exact cleanupDestroyAll_lookup_none ws oracle rest _ id hnone
            · rw [h1, h2, destroyGrid_ok g id ws inst hl (by simpa using hd)]
              exact cleanupDestroyAll_lookup_none ws oracle rest _ id
                (lookupGrid_deleteGrid_self g id)
      · have hmem' : gridId ∈ rest := by
          rcases List.mem_cons.mp hmem with hc | hc
          · exact absurd hc.symm hij
          · exact hc
        exact ih _ hmem'

theorem filter_orderedInsert_key (x : SortEntry) (l : List SortEntry) (k : ℚ) :
    (List.orderedInsert sortLE x l).filter (fun e => sortKey e == k) =
      if sortKey x == k then x :: l.filter (fun e => sortKey e == k)
      else l.filter (fun e => sortKey e == k) := by
  induction l with
  | nil =>
      by_cases hx : sortKey x == k
      · simp [List.orderedInsert, List.filter, hx]
      · simp [List.orderedInsert, List.filter, hx]
  | cons y ys ih =>
      by_cases hr : sortLE x y
      · by_cases hx : sortKey x == k
        · simp [List.orderedInsert, hr, List.filter_cons, hx]
        · simp [List.orderedInsert, hr, List.filter_cons, hx]
      · have hlt : sortKey y < sortKey x := lt_of_not_le hr
        by_cases hx : sortKey x == k
        · have hk : sortKey x = k := beq_iff_eq.mp hx
          have hy : (sortKey y == k) = false := by
            simp only [beq_eq_false_iff_ne, ne_eq]
            intro hc
            rw [hc, ← hk] at hlt
            exact lt_irrefl _ hlt
          simp only [List.orderedInsert, if_neg hr, List.filter_cons, hy,
            Bool.false_eq_true, if_false, ih, hx, if_true]
        · simp only [List.orderedInsert, if_neg hr, List.filter_cons, ih, hx,
            Bool.false_eq_true, if_false]

theorem insertionSort_filter_key (l : List SortEntry) (k : ℚ) :
    (List.insertionSort sortLE l).filter (fun e => sortKey e == k) =
      l.filter (fun e => sortKey e == k) := by
  induction l with
  | nil => rfl
  | cons x xs ih =>
      simp only [List.insertionSort]
      rw [filter_orderedInsert_key x (List.insertionSort sortLE xs) k, ih]
      by_cases hx : sortKey x == k
      · simp [List.filter_cons, hx]
      · simp [List.filter_cons, hx]

theorem sortStateOf_sorted (cs : List ColState) :
    List.Sorted sortLE (sortStateOf cs) :=
  List.sorted_insertionSort sortLE (sortSource cs)

theorem sortStateOf_perm (cs : List ColState) :
    List.Perm (sortStateOf cs) (sortSource cs) :=
  List.perm_insertionSort sortLE (sortSource cs)

theorem sortStateOf_stable (cs : List ColState) (k : ℚ) :
    (sortStateOf cs).filter (fun e => sortKey e == k) =
      (sortSource cs).filter (fun e => sortKey e == k) :=
  insertionSort_filter_key (sortSource cs) k

theorem thresholdTen (n : ℕ) : ((4 : ℚ)/5 < (n : ℚ)/10) ↔ 9 ≤ n := by
  rw [div_lt_div_iff₀ (by norm_num) (by norm_num)]
  constructor
  · intro h
    by_contra hc
    push_neg at hc
    have : (n : ℚ) ≤ 8 := by exact_mod_cast Nat.lt_succ_iff.mp hc
    linarith
  · intro h
    have : (9 : ℚ) ≤ (n : ℚ) := by exact_mod_cast h
    linarith

theorem nullCount_eq_filter_length (rows : List Row) (f : String) :
    rows.length - ((rows.map (fun r => getFieldR r f)).filter (fun v => !v.isNullish)).length
      = (rows.filter (fun r => (getFieldR r f).isNullish)).length := by
  induction rows with
  | nil => rfl
  | cons r rest ih =>
      have hle : ((rest.map (fun r => getFieldR r f)).filter (fun v => !v.isNullish)).length
          ≤ rest.length := by
        calc ((rest.map (fun r => getFieldR r f)).filter (fun v => !v.isNullish)).length
            ≤ (rest.map (fun r => getFieldR r f)).length := List.length_filter_le _ _
          _ = rest.length := List.length_map _ _
      by_cases hn : (getFieldR r f).isNullish
      · simp only [List.map_cons, List.filter_cons, hn, Bool.not_true,
          Bool.false_eq_true, if_false, if_true, List.length_cons]
        omega
      · simp only [Bool.not_eq_true] at hn
        simp only [List.map_cons, List.filter_cons, hn, Bool.not_false, if_true,
          Bool.false_eq_true, if_false, List.length_cons]
        omega


theorem getGridInstance_ok_iff (g : Registry) (gridId : String) (inst : GridInstance) :
    getGridInstance g gridId = .ok inst ↔
      (lookupGrid g gridId = some inst ∧ inst.isDestroyed = false) := by
  unfold getGridInstance
  cases hl : lookupGrid g gridId with
  | none => simp
  | some i =>
      dsimp only
      cases hd : i.isDestroyed with
      | true =>
          constructor
          · intro hc
            simp at hc
          · rintro ⟨hi, hdf⟩
            injection hi with hi
            rw [hi] at hd
            rw [hd] at hdf
            exact Bool.noConfusion hdf
      | false =>
          constructor
          · intro hc
            simp only [Bool.false_eq_true, if_false, Except.ok.injEq] at hc
            exact ⟨by rw [hc], by rw [← hc]; exact hd⟩
          · rintro ⟨hi, _⟩
            injection hi with hi
            simp only [Bool.false_eq_true, if_false, Except.ok.injEq]
            exact hi

/-- Claim C1: the claim asserts that a destroy whose surface-level destroy
call (or page close) throws still removes the grid's record from the
registry and reports a DestroyFailedError.  At the concrete input below the
in-page destroy call throws: the operation does report the DESTROY_FAILED
error wrapping the cause, but the record is NOT removed — the identifier
still resolves and still appears in the active list, contradicting the
claim. -/
theorem C1_counterexample :
    (destroyGrid demoRegistry "g1" true (.error "page crashed") (.ok ())).result =
        .error { message := "Failed to destroy grid", code := "DESTROY_FAILED"
                 gridId := some "g1", cause := some "page crashed" }
      ∧ (destroyGrid demoRegistry "g1" true (.error "page crashed") (.ok ())).grids = demoRegistry
      ∧ getGridInstance (destroyGrid demoRegistry "g1" true
          (.error "page crashed") (.ok ())).grids "g1" = .ok demoInstance
      ∧ getActiveGrids (destroyGrid demoRegistry "g1" true
          (.error "page crashed") (.ok ())).grids = ["g1"] := by
  decide

/-- Claim C1 (amended): for a registered, not-yet-destroyed grid, a failure
of the in-page destroy call or of the page close makes destroy report a
DestroyFailedError wrapping the cause while leaving the record in the
registry — the identifier still resolves and still appears in list(); the
record is removed only when both surface calls succeed. -/
theorem C1_amended (g : Registry) (gridId : String) (inst : GridInstance) (ws : Bool)
    (h : lookupGrid g gridId = some inst) (hd : inst.isDestroyed = false) :
    (∀ (e : String) (o2 : Except String Unit),
        (destroyGrid g gridId ws (.error e) o2).result =
            .error { message := "Failed to destroy grid", code := "DESTROY_FAILED"
                     gridId := some gridId, cause := some e }
          ∧ (destroyGrid g gridId ws (.error e) o2).grids = g
          ∧ getGridInstance (destroyGrid g gridId ws (.error e) o2).grids gridId = .ok inst
          ∧ gridId ∈ getActiveGrids (destroyGrid g gridId ws (.error e) o2).grids)
      ∧ (∀ e : String,
          (destroyGrid g gridId ws (.ok ()) (.error e)).result =
              .error { message := "Failed to destroy grid", code := "DESTROY_FAILED"
                       gridId := some gridId, cause := some e }
            ∧ (destroyGrid g gridId ws (.ok ()) (.error e)).grids = g)
      ∧ ((destroyGrid g gridId ws (.ok ()) (.ok ())).result = .ok ()
          ∧ lookupGrid (destroyGrid g gridId ws (.ok ()) (.ok ())).grids gridId = none) := by
  refine ⟨fun e o2 => ?_, fun e => ?_, ?_⟩
  · rw [destroyGrid_evalFail g gridId ws inst e o2 h hd]
    refine ⟨rfl, rfl, ?_, ?_⟩
    · exact (getGridInstance_ok_iff g gridId inst).mpr ⟨h, hd⟩
    · exact mem_getActiveGrids_of_lookup g gridId inst h hd
  · rw [destroyGrid_closeFail g gridId ws inst e h hd]
    exact ⟨rfl, rfl⟩
  · rw [destroyGrid_ok g gridId ws inst h hd]
    exact ⟨rfl, lookupGrid_deleteGrid_self g gridId⟩

/-- Claim C1 (witness): the amended theorem applied to the concrete registry
holding the live grid g1 with a failing in-page destroy call. -/
theorem C1_witness :
    (destroyGrid demoRegistry "g1" true (.error "boom") (.ok ())).grids = demoRegistry :=
  ((C1_amended demoRegistry "g1" demoInstance true (by decide) (by decide)).1 "boom"
    (.ok ())).2.1

/-- Claim C3: the claim asserts that operations on a destroyed identifier
fail with DestroyedError, distinct from NotFoundError.  At the concrete
input below the grid g1 is successfully destroyed; a subsequent resolve
fails with GRID_NOT_FOUND — not GRID_DESTROYED — and so does a second
destroy, contradicting the claim. -/
theorem C3_counterexample :
    (destroyGrid demoRegistry "g1" true (.ok ()) (.ok ())).result = .ok ()
      ∧ getGridInstance (destroyGrid demoRegistry "g1" true (.ok ()) (.ok ())).grids "g1"
          = .error (notFoundError "g1")
      ∧ getGridInstance (destroyGrid demoRegistry "g1" true (.ok ()) (.ok ())).grids "g1"
          ≠ .error (destroyedError "g1")
      ∧ (destroyGrid (destroyGrid demoRegistry "g1" true (.ok ()) (.ok ())).grids "g1"
          true (.ok ()) (.ok ())).result = .error (notFoundError "g1") := by
  decide

/-- Claim C3 (amended): after a successful destroy the identifier is removed
from the registry altogether, so every later operation on it — resolve,
replaceData, invokeMethod, export, readState, a second destroy — fails with
the same GRID_NOT_FOUND error that identifiers never issued receive;
GRID_DESTROYED is raised only for a record still present whose destroyed
flag is set, which a successful destroy never leaves behind. -/
theorem C3_amended (g : Registry) (gridId : String) (inst : GridInstance) (ws : Bool)
    (h : lookupGrid g gridId = some inst) (hd : inst.isDestroyed = false) :
    (destroyGrid g gridId ws (.ok ()) (.ok ())).result = .ok ()
      ∧ lookupGrid (destroyGrid g gridId ws (.ok ()) (.ok ())).grids gridId = none
      ∧ getGridInstance (destroyGrid g gridId ws (.ok ()) (.ok ())).grids gridId
          = .error (notFoundError gridId)
      ∧ (∀ (rows : List Row) (ws2 : Bool) (now : ℚ) (r : Except String Unit),
          (updateGridData (destroyGrid g gridId ws (.ok ()) (.ok ())).grids gridId
            rows ws2 now r).result = .error (notFoundError gridId))
      ∧ (∀ (m : String) (params : Option (List Cell)) (ws2 : Bool)
            (r1 : Except String Cell) (r2 : Except String ℚ),
          (executeGridMethod (destroyGrid g gridId ws (.ok ()) (.ok ())).grids gridId
            m params ws2 r1 r2).result = .error (notFoundError gridId))
      ∧ (∀ (fmt : String) (ws2 : Bool) (ts : String) (r : Except String String),
          (exportGridData (destroyGrid g gridId ws (.ok ()) (.ok ())).grids gridId
            fmt ws2 ts r).result = .error (notFoundError gridId))
      ∧ (∀ r : Except String SurfaceReadings,
          (getGridState (destroyGrid g gridId ws (.ok ()) (.ok ())).grids gridId
            r).result = .error (notFoundError gridId))
      ∧ (∀ (ws2 : Bool) (o1 o2 : Except String Unit),
          (destroyGrid (destroyGrid g gridId ws (.ok ()) (.ok ())).grids gridId
            ws2 o1 o2).result = .error (notFoundError gridId)) := by
  rw [destroyGrid_ok g gridId ws inst h hd]
  have hnone : lookupGrid (deleteGrid g gridId) gridId = none :=
    lookupGrid_deleteGrid_self g gridId
  have hres : getGridInstance (deleteGrid g gridId) gridId = .error (notFoundError gridId) := by
    unfold getGridInstance
    rw [hnone]
    rfl
  refine ⟨rfl, hnone, hres, ?_, ?_, ?_, ?_, ?_⟩
  · intro rows ws2 now r
    unfold updateGridData
    rw [hres]
  · intro m params ws2 r1 r2
    unfold executeGridMethod
    rw [hres]
  · intro fmt ws2 ts r
    unfold exportGridData
    rw [hres]
  · intro r
    unfold getGridState
    rw [hres]
  · intro ws2 o1 o2
    rw [destroyGrid_notFound (deleteGrid g gridId) gridId ws2 o1 o2 hnone]

/-- Claim C3 (witness): the amended theorem applied to the concrete registry
holding the live grid g1. -/
theorem C3_witness :
    lookupGrid (destroyGrid demoRegistry "g1" true (.ok ()) (.ok ())).grids "g1" = none :=
  (C3_amended demoRegistry "g1" demoInstance true (by decide) (by decide)).2.1

theorem mem_keys_of_lookup (g : Registry) (gridId : String) (inst : GridInstance)
    (h : lookupGrid g gridId = some inst) : gridId ∈ g.map (·.1) := by
  induction g with
  | nil => simp [lookupGrid] at h
  | cons p rest ih =>
      by_cases h1 : p.1 == gridId
      · simp [beq_iff_eq.mp h1]
      · simp only [lookupGrid, h1, if_false] at h
        simp only [List.map_cons, List.mem_cons]
        exact Or.inr (ih h)

/-- Claim C2: the claim characterizes the creation schema as requiring a
non-empty ordered column list with unique field identifiers.  The zod
schema of the grid manager imposes neither: at the concrete inputs below a
configuration with two columns sharing the field a and a configuration with
an empty column list both pass validation, and createGrid succeeds on them
instead of failing with the INVALID_CONFIG error. -/
theorem C2_counterexample :
    validateGridConfig cfgDupFields = true
      ∧ validateGridConfig cfgNoCols = true
      ∧ (createGrid true [] cfgDupFields false "gid-1" 0 (.ok ()) (.ok ()) (.ok ())
          (.ok ()) (.ok ()) (.ok { success := true })).result = .ok "gid-1"
      ∧ (createGrid true [] cfgNoCols false "gid-2" 0 (.ok ()) (.ok ()) (.ok ())
          (.ok ()) (.ok ()) (.ok { success := true })).result = .ok "gid-2" := by
  decide

/-- Claim C2 (amended): createGrid validates the config against a schema
that only requires each column definition to carry a string field (with
optional typed extras) — neither non-emptiness nor uniqueness of field
identifiers is enforced; on an actual schema violation, and with the
manager initialized, create fails with INVALID_CONFIG before any surface
call is made, leaving the registry unchanged and emitting no event, so a
validation failure allocates no resource. -/
theorem C2_amended (g : Registry) (config : GridConfig) (ws : Bool)
    (freshId : String) (now : ℚ)
    (r1 r2 r3 r4 r5 : Except String Unit) (r6 : Except String CreateResult)
    (hv : validateGridConfig config = false) :
    createGrid true g config ws freshId now r1 r2 r3 r4 r5 r6 =
      { result := .error { message := "Invalid grid configuration"
                           code := "INVALID_CONFIG", cause := some "ZodError" }
        grids := g, calls := [], events := [] } := by
  unfold createGrid
  simp [hv]

/-- Claim C2 (witness): the amended theorem applied to a configuration whose
single column definition lacks a string field. -/
theorem C2_witness :
    createGrid true demoRegistry { columnDefs := [{}], rowData := [] } true "gid-3" 7
        (.ok ()) (.ok ()) (.ok ()) (.ok ()) (.ok ()) (.ok { success := true }) =
      { result := .error { message := "Invalid grid configuration"
                           code := "INVALID_CONFIG", cause := some "ZodError" }
        grids := demoRegistry, calls := [], events := [] } :=
  C2_amended demoRegistry { columnDefs := [{}], rowData := [] } true "gid-3" 7
    (.ok ()) (.ok ()) (.ok ()) (.ok ()) (.ok ()) (.ok { success := true }) (by decide)

/-- Claim C4: the claim asserts that after shutdown with two live grids both
are absent from the active list even if one grid's destroy fails, and that
shutdown raises exactly when the engine-level close fails.  At the concrete
input below g1's in-page destroy fails and the browser close also fails:
cleanup still returns normally (no error despite the failing close), and g1
is still present in the active list. -/
theorem C4_counterexample :
    cleanup twoGridRegistry true cleanupFailFirstOracle true (.error "close failed") =
        .ok { grids := [("g1", demoInstance)]
              calls := [.evalDestroy, .evalDestroy, .closePage]
              events := [.removeGrid "g2"]
              logs := ["Error destroying grid g1: Failed to destroy grid",
                       "Error closing browser: close failed"] }
      ∧ getActiveGrids [("g1", demoInstance)] = ["g1"] := by
  decide

/-- Claim C4 (amended): cleanup destroys every grid known at entry in
insertion order, logging per-grid failures; a grid whose in-page destroy
call fails keeps its registry record and stays in the active list, while a
grid whose destroy calls succeed is removed; a browser-close failure is
logged, never raised, and cleanup always returns normally. -/
theorem C4_amended (g : Registry) (ws : Bool) (oracle : String → DestroyOracle)
    (bp : Bool) (closeB : Except String Unit) :
    ∃ co : CleanupOut, cleanup g ws oracle bp closeB = .ok co
      ∧ (∀ (gridId : String) (inst : GridInstance) (e : String),
          lookupGrid g gridId = some inst → inst.isDestroyed = false →
          (oracle gridId).evalDestroy = .error e →
          lookupGrid co.grids gridId = some inst ∧ gridId ∈ getActiveGrids co.grids)
      ∧ (∀ (gridId : String) (inst : GridInstance),
          lookupGrid g gridId = some inst →
          (oracle gridId).evalDestroy = .ok () → (oracle gridId).closePage = .ok () →
          lookupGrid co.grids gridId = none ∧ gridId ∉ getActiveGrids co.grids) := by
  refine ⟨_, rfl, ?_, ?_⟩
  · intro gridId inst e hl hd he
    have hk := cleanupDestroyAll_lookup_of_evalFail ws oracle (g.map (·.1)) g gridId inst e hl hd he
    exact ⟨hk, mem_getActiveGrids_of_lookup _ gridId inst hk hd⟩
  · intro gridId inst hl h1 h2
    have hmem := mem_keys_of_lookup g gridId inst hl
    have hk := cleanupDestroyAll_lookup_removed ws oracle (g.map (·.1)) g gridId hmem h1 h2
    exact ⟨hk, not_mem_getActiveGrids_of_lookup_none _ gridId hk⟩

/-- Claim C4 (witness): the amended theorem applied to the two-grid registry
where g1's in-page destroy fails and g2's succeeds, with a failing browser
close. -/
theorem C4_witness :
    ∃ co : CleanupOut,
      cleanup twoGridRegistry true cleanupFailFirstOracle true (.error "boom") = .ok co
        ∧ lookupGrid co.grids "g1" = some demoInstance
        ∧ "g1" ∈ getActiveGrids co.grids
        ∧ lookupGrid co.grids "g2" = none
        ∧ "g2" ∉ getActiveGrids co.grids := by
  obtain ⟨co, hco, hfail, hok⟩ :=
    C4_amended twoGridRegistry true cleanupFailFirstOracle true (.error "boom")
  obtain ⟨hf1, hf2⟩ := hfail "g1" demoInstance "boom" (by decide) (by decide) (by decide)
  obtain ⟨ho1, ho2⟩ := hok "g2" secondInstance (by decide) (by decide) (by decide)
  exact ⟨co, hco, hf1, hf2, ho1, ho2⟩

/-- Claim C5: the claim asserts that for setFilterModel/applyColumnState the
secondary displayed-row-count read is swallowed on failure and never causes
invokeMethod to fail with MethodExecutionError.  At the concrete input
below the method call itself succeeds but the secondary read fails: the
whole operation fails with METHOD_EXECUTION_FAILED (and the notification is
not emitted), contradicting the claim. -/
theorem C5_counterexample :
    (executeGridMethod demoRegistry "g1" "setFilterModel" (some [Cell.objref 7]) true
        (.ok Cell.undef) (.error "page closed")).result =
      .error { message := "Failed to execute grid method: setFilterModel"
               code := "METHOD_EXECUTION_FAILED", gridId := some "g1"
               cause := some "page closed" }
      ∧ (executeGridMethod demoRegistry "g1" "setFilterModel" (some [Cell.objref 7]) true
          (.ok Cell.undef) (.error "page closed")).events = [] := by
  decide

/-- Claim C5 (amended): for a live grid with the sink attached, a
setFilterModel invocation with a truthy first argument performs the
secondary displayed-row-count read inside the same try block, so a failure
of that read alone fails the whole invokeMethod with METHOD_EXECUTION_FAILED
and emits no notification; an applyColumnState invocation performs no
secondary read at all; and with no sink attached no secondary read occurs
for any method. -/
theorem C5_amended (g : Registry) (gridId : String) (inst : GridInstance)
    (h : getGridInstance g gridId = .ok inst) :
    (∀ (params : Option (List Cell)) (rv : Cell) (e : String),
        paramsHeadTruthy params = true →
        executeGridMethod g gridId "setFilterModel" params true (.ok rv) (.error e) =
          { result := .error { message := "Failed to execute grid method: setFilterModel"
                               code := "METHOD_EXECUTION_FAILED", gridId := some gridId
                               cause := some e }
            grids := g
            calls := [.evalMethod "setFilterModel", .evalDisplayedCount]
            events := [] })
      ∧ (∀ (params : Option (List Cell)) (rv : Cell) (d : Except String ℚ),
          (executeGridMethod g gridId "applyColumnState" params true (.ok rv) d).calls =
            [.evalMethod "applyColumnState"])
      ∧ (∀ (m : String) (params : Option (List Cell)) (rv : Cell) (d : Except String ℚ),
          (executeGridMethod g gridId m params false (.ok rv) d).calls = [.evalMethod m]) := by
  refine ⟨?_, ?_, ?_⟩
  · intro params rv e hp
    unfold executeGridMethod
    rw [h]
    simp [hp]
  · intro params rv d
    unfold executeGridMethod
    rw [h]
    have hne : ("applyColumnState" == "setFilterModel") = false := by decide
    by_cases hp : paramsHeadTruthy params
    · simp [hne, hp]
    · simp [hne, hp]
  · intro m params rv d
    unfold executeGridMethod
    rw [h]
    simp

/-- Claim C5 (witness): the amended theorem applied to the concrete registry
holding the live grid g1 and a failing displayed-count read. -/
theorem C5_witness :
    (executeGridMethod demoRegistry "g1" "setFilterModel" (some [Cell.objref 1]) true
        (.ok Cell.null) (.error "boom")).calls =
      [.evalMethod "setFilterModel", .evalDisplayedCount] := by
  rw [(C5_amended demoRegistry "g1" demoInstance (by decide)).1 (some [Cell.objref 1])
    Cell.null "boom" (by decide)]

/-- Claim C7: for a grid whose identifier resolves, exportGridData rejects
any format outside the closed enumeration csv/excel with the
INVALID_EXPORT_FORMAT error before any surface call (empty call trace, no
event), and contacts the surface — with the single getDataAsCsv call — only
for the two valid formats. -/
theorem C7_export_format (g : Registry) (gridId : String) (inst : GridInstance)
    (format : String) (ws : Bool) (ts : String) (r : Except String String)
    (h : getGridInstance g gridId = .ok inst) :
    ((format ≠ "csv" ∧ format ≠ "excel") →
        exportGridData g gridId format ws ts r =
          { result := .error { message := "Invalid export format"
                               code := "INVALID_EXPORT_FORMAT", gridId := some gridId
                               cause := some "ZodError" }
            grids := g, calls := [], events := [] })
      ∧ ((format = "csv" ∨ format = "excel") →
          (exportGridData g gridId format ws ts r).calls = [.evalGetCsv]) := by
  constructor
  · rintro ⟨h1, h2⟩
    unfold exportGridData
    rw [h]
    have hb1 : (format == "csv") = false := by simpa using h1
    have hb2 : (format == "excel") = false := by simpa using h2
    simp [hb1, hb2]
  · intro hv
    unfold exportGridData
    rw [h]
    have hb : (format == "csv" || format == "excel") = true := by
      rcases hv with hv | hv <;> simp [hv]
    rw [hb]
    cases r with
    | error e => rfl
    | ok data => rfl

/-- Claim C7 (witness): the theorem applied to the live grid g1 and the
invalid format pdf. -/
theorem C7_witness :
    exportGridData demoRegistry "g1" "pdf" true "2025-01-01T00-00-00-000Z" (.ok "a,b") =
      { result := .error { message := "Invalid export format"
                           code := "INVALID_EXPORT_FORMAT", gridId := some "g1"
                           cause := some "ZodError" }
        grids := demoRegistry, calls := [], events := [] } :=
  (C7_export_format demoRegistry "g1" demoInstance "pdf" true "2025-01-01T00-00-00-000Z"
    (.ok "a,b") (by decide)).1 ⟨by decide, by decide⟩

theorem displayedRowsOf_no_filter (s : SurfaceState) (h : s.filterModel = []) :
    displayedRowsOf s = s.rows := by
  unfold displayedRowsOf
  rw [h]
  simp [rowPassesFilter]

/-- Claim C6: the claim asserts that readState returns rowCount equal to the
grid's total (pre-filter) row count.  At the concrete input below the
surface holds three rows of which the active set filter keeps one: the
returned state has rowCount 1 — the post-filter displayed count — while
the surface's total row count is 3, contradicting the claim. -/
theorem C6_counterexample :
    (getGridState demoRegistry "g1" (.ok (surfaceReadingsOf filteredSurface))).result =
        .ok { columnState := [], filterState := [("status", [Cell.str "completed"])]
              sortState := [], selectedRows := [], rowCount := 1, displayedRowCount := 1 }
      ∧ filteredSurface.rows.length = 3
      ∧ (1 : ℚ) ≠ ((filteredSurface.rows.length : ℕ) : ℚ) := by
  decide

/-- Claim C6 (amended): readState always returns rowCount equal to
displayedRowCount — both are the surface's post-filter displayed-row-count
reading, so rowCount is the displayed (post-filter) count, not the total;
in particular, after replaceData(id, rows) succeeds and no filter is active
on the surface, readState(id).rowCount equals rows.length, because with an
empty filter model the displayed count equals the total. -/
theorem C6_amended (g : Registry) (gridId : String) (inst : GridInstance)
    (h : getGridInstance g gridId = .ok inst) :
    (∀ r : SurfaceReadings, ∃ st,
        (getGridState g gridId (.ok r)).result = .ok st
          ∧ st.rowCount = r.displayedRowCount
          ∧ st.displayedRowCount = r.displayedRowCount)
      ∧ (∀ (s : SurfaceState) (rows : List Row) (ws : Bool) (now : ℚ),
          s.filterModel = [] →
          ∃ st,
            (getGridState (updateGridData g gridId rows ws now (.ok ())).grids gridId
              (.ok (surfaceReadingsOf (surfaceSetRowData s rows)))).result = .ok st
              ∧ st.rowCount = (rows.length : ℚ)
              ∧ st.displayedRowCount = (rows.length : ℚ)) := by
  constructor
  · intro r
    refine ⟨{ columnState := r.columnState, filterState := r.filterModel
              sortState := sortStateOf r.columnState, selectedRows := r.selectedRows
              rowCount := r.displayedRowCount
              displayedRowCount := r.displayedRowCount }, ?_, rfl, rfl⟩
    unfold getGridState
    rw [h]
  · intro s rows ws now hf
    obtain ⟨hl, hd⟩ := (getGridInstance_ok_iff g gridId inst).mp h
    have hu : (updateGridData g gridId rows ws now (.ok ())).grids =
        setGrid g gridId { inst with config := { inst.config with rowData := rows }
                                     lastUpdated := now } := by
      unfold updateGridData
      rw [h]
    have hres : getGridInstance (updateGridData g gridId rows ws now (.ok ())).grids gridId
        = .ok { inst with config := { inst.config with rowData := rows }
                          lastUpdated := now } := by
      rw [hu]
      exact (getGridInstance_ok_iff _ gridId _).mpr
        ⟨lookupGrid_setGrid_self g gridId _, by simpa using hd⟩
    have hcount : (surfaceReadingsOf (surfaceSetRowData s rows)).displayedRowCount
        = (rows.length : ℚ) := by
      have hfm : (surfaceSetRowData s rows).filterModel = [] := by
        simpa [surfaceSetRowData] using hf
      have hdisp := displayedRowsOf_no_filter (surfaceSetRowData s rows) hfm
      show ((displayedRowsOf (surfaceSetRowData s rows)).length : ℚ) = (rows.length : ℚ)
      rw [hdisp]
      simp [surfaceSetRowData]
    refine ⟨{ columnState := (surfaceReadingsOf (surfaceSetRowData s rows)).columnState
              filterState := (surfaceReadingsOf (surfaceSetRowData s rows)).filterModel
              sortState := sortStateOf (surfaceReadingsOf (surfaceSetRowData s rows)).columnState
              selectedRows := (surfaceReadingsOf (surfaceSetRowData s rows)).selectedRows
              rowCount := (surfaceReadingsOf (surfaceSetRowData s rows)).displayedRowCount
              displayedRowCount :=
                (surfaceReadingsOf (surfaceSetRowData s rows)).displayedRowCount },
            ?_, ?_, ?_⟩
    · unfold getGridState
      rw [hres]
    · simpa using hcount
    · simpa using hcount

/-- Claim C6 (witness): the amended theorem applied to the live grid g1, an
unfiltered surface and a single replacement row. -/
theorem C6_witness :
    ∃ st,
      (getGridState (updateGridData demoRegistry "g1" [[("x", Cell.num 1)]] true 5
          (.ok ())).grids "g1"
        (.ok (surfaceReadingsOf (surfaceSetRowData
          { rows := [], filterModel := [], columnState := [], selectedRows := [] }
          [[("x", Cell.num 1)]])))).result = .ok st
        ∧ st.rowCount = (([[("x", Cell.num 1)]] : List Row).length : ℚ)
        ∧ st.displayedRowCount = (([[("x", Cell.num 1)]] : List Row).length : ℚ) :=
  (C6_amended demoRegistry "g1" demoInstance (by decide)).2
    { rows := [], filterModel := [], columnState := [], selectedRows := [] }
    [[("x", Cell.num 1)]] true 5 rfl

/-- Claim C8: the claim asserts that at least 80% numeric values in the
10-value sample yield the inferred type number, so that exactly 8 of 10
numeric values infer number.  The source compares with a strict
greater-than: at the concrete sample below with exactly 8 numeric values of
10 the inferred type is text, not number, contradicting the claim. -/
theorem C8_counterexample :
    inferDataType (fun _ => false) c8Sample = "text"
      ∧ inferDataType (fun _ => false) c8Sample ≠ "number" := by
  have hval : inferDataType (fun _ => false) c8Sample = "text" := by
    unfold inferDataType
    have h0 : c8Sample.isEmpty = false := by decide
    have h1 : (c8Sample.take 10).countP Cell.isFiniteNumber = 8 := by decide
    have h2 : (c8Sample.take 10).countP Cell.isBooleanC = 2 := by decide
    have h3 : (c8Sample.take 10).countP (isDateLike (fun _ => false)) = 0 := by decide
    have h4 : (c8Sample.take 10).length = 10 := by decide
    rw [h0]
    simp only [Bool.false_eq_true, if_false]
    rw [h1, h2, h3, h4]
    norm_num
  exact ⟨hval, by rw [hval]; decide⟩

/-- Claim C8 (amended): the inferred type is computed from the first 10
non-null values with strict thresholds — for a full sample of 10 values the
type is number iff at least 9 are numeric, boolean iff at most 8 are
numeric and at least 9 are boolean, date iff at most 8 are numeric, at most
8 boolean and at least 9 date-parseable, and text otherwise; in particular
a sample with exactly 8 of 10 numeric values is inferred as text. -/
theorem C8_amended (pf : String → Bool) (values : List Cell) (h : 10 ≤ values.length) :
    (inferDataType pf values = "number" ↔
        9 ≤ (values.take 10).countP Cell.isFiniteNumber)
      ∧ (inferDataType pf values = "boolean" ↔
          ((values.take 10).countP Cell.isFiniteNumber ≤ 8
            ∧ 9 ≤ (values.take 10).countP Cell.isBooleanC))
      ∧ (inferDataType pf values = "date" ↔
          ((values.take 10).countP Cell.isFiniteNumber ≤ 8
            ∧ (values.take 10).countP Cell.isBooleanC ≤ 8
            ∧ 9 ≤ (values.take 10).countP (isDateLike pf)))
      ∧ (inferDataType pf values = "text" ↔
          ((values.take 10).countP Cell.isFiniteNumber ≤ 8
            ∧ (values.take 10).countP Cell.isBooleanC ≤ 8
            ∧ (values.take 10).countP (isDateLike pf) ≤ 8)) := by
  have hne : values.isEmpty = false := by
    cases values with
    | nil => simp at h
    | cons a l => rfl
  have hlen : (values.take 10).length = 10 := by
    rw [List.length_take]
    omega
  set nc := (values.take 10).countP Cell.isFiniteNumber with hnc
  set bc := (values.take 10).countP Cell.isBooleanC with hbc
  set dc := (values.take 10).countP (isDateLike pf) with hdc
  have hval : inferDataType pf values =
      (if (nc : ℚ) / 10 > 4/5 then "number"
       else if (bc : ℚ) / 10 > 4/5 then "boolean"
       else if (dc : ℚ) / 10 > 4/5 then "date"
       else "text") := by
    unfold inferDataType
    rw [hne]
    simp only [Bool.false_eq_true, if_false, hlen, ← hnc, ← hbc, ← hdc]
    norm_num
  rw [hval]
  by_cases h1 : 9 ≤ nc
  · rw [if_pos ((thresholdTen nc).mpr h1)]
    refine ⟨by simp [h1], ?_, ?_, ?_⟩
    · constructor
      · intro hc
        exact absurd hc (by decide)
      · rintro ⟨hc, -⟩
        omega
    · constructor
      · intro hc
        exact absurd hc (by decide)
      · rintro ⟨hc, -, -⟩
        omega
    · constructor
      · intro hc
        exact absurd hc (by decide)
      · rintro ⟨hc, -, -⟩
        omega
  · rw [if_neg (fun hc => h1 ((thresholdTen nc).mp hc))]
    have h1' : nc ≤ 8 := by omega
    by_cases h2 : 9 ≤ bc
    · rw [if_pos ((thresholdTen bc).mpr h2)]
      refine ⟨by simp [h1], by simp [h1', h2], ?_, ?_⟩
      · constructor
        · intro hc
          exact absurd hc (by decide)
        · rintro ⟨-, hc, -⟩
          omega
      · constructor
        · intro hc
          exact absurd hc (by decide)
        · rintro ⟨-, hc, -⟩
          omega
    · rw [if_neg (fun hc => h2 ((thresholdTen bc).mp hc))]
      have h2' : bc ≤ 8 := by omega
      by_cases h3 : 9 ≤ dc
      · rw [if_pos ((thresholdTen dc).mpr h3)]
        refine ⟨by simp [h1], ?_, by simp [h1', h2', h3], ?_⟩
        · constructor
          · intro hc
            exact absurd hc (by decide)
          · rintro ⟨-, hc⟩
            omega
        · constructor
          · intro hc
            exact absurd hc (by decide)
          · rintro ⟨-, -, hc⟩
            omega
      · rw [if_neg (fun hc => h3 ((thresholdTen dc).mp hc))]
        have h3' : dc ≤ 8 := by omega
        refine ⟨by simp [h1], ?_, ?_, by simp [h1', h2', h3']⟩
        · constructor
          · intro hc
            exact absurd hc (by decide)
          · rintro ⟨-, hc⟩
            omega
        · constructor
          · intro hc
            exact absurd hc (by decide)
          · rintro ⟨-, -, hc⟩
            omega

/-- Claim C8 (witness): the amended theorem applied to the concrete sample
with exactly 8 of 10 numeric values. -/
theorem C8_witness :
    inferDataType (fun _ => false) c8Sample = "number" ↔
      9 ≤ (c8Sample.take 10).countP Cell.isFiniteNumber :=
  (C8_amended (fun _ => false) c8Sample (by decide)).1

theorem analyzeColumnData_nullCount (pf : String → Bool) (data : List Row)
    (field : String) (cd : ColumnDefV) :
    (analyzeColumnData pf data field cd).nullCount =
      (data.filter (fun r => (getFieldR r field).isNullish)).length := by
  rw [← nullCount_eq_filter_length data field]
  simp only [analyzeColumnData]
  split
  · split
    · split
      · split <;> rfl
      · rfl
    · split
      · split <;> rfl
      · rfl
  · split
    · split <;> rfl
    · rfl

theorem summaryStatsCore_columnStats (pf : String → Bool) (gid : String)
    (defs : List ColumnDefV) (rows : List Row) :
    (summaryStatsCore pf gid defs rows).columnStats =
      defs.map (fun colDef => analyzeColumnData pf rows (fieldStr colDef) colDef) := rfl

theorem summaryStatsCore_nullCells (pf : String → Bool) (gid : String)
    (defs : List ColumnDefV) (rows : List Row) :
    ((summaryStatsCore pf gid defs rows).columnStats.map (·.nullCount)).sum
      = totalNullCells rows defs := by
  rw [summaryStatsCore_columnStats, List.map_map]
  unfold totalNullCells
  apply congrArg
  apply List.map_congr_left
  intro d _
  show (analyzeColumnData pf rows (fieldStr d) d).nullCount = nullsInColumn rows d
  rw [analyzeColumnData_nullCount]
  rfl

theorem summaryStatsCore_completeness (pf : String → Bool) (gid : String)
    (defs : List ColumnDefV) (rows : List Row)
    (hpos : 0 < rows.length * defs.length) :
    (summaryStatsCore pf gid defs rows).completeness
      = jsRound2 (100 * (1 - (totalNullCells rows defs : ℚ)
          / ((rows.length * defs.length : ℕ) : ℚ))) := by
  have hsum := summaryStatsCore_nullCells pf gid defs rows
  rw [summaryStatsCore_columnStats] at hsum
  show jsRound2 _ = _
  rw [List.length_map, hsum, if_pos hpos]
  congr 1
  have ha : rows.length ≠ 0 := by
    intro h0
    rw [h0] at hpos
    simp at hpos
  have hb : defs.length ≠ 0 := by
    intro h0
    rw [h0] at hpos
    simp at hpos
  have haq : ((rows.length : ℕ) : ℚ) ≠ 0 := Nat.cast_ne_zero.mpr ha
  have hbq : ((defs.length : ℕ) : ℚ) ≠ 0 := Nat.cast_ne_zero.mpr hb
  push_cast
  field_simp
  ring

theorem analyze_price_concrete (pf : String → Bool) :
    analyzeColumnData pf priceRows "price" priceCol =
      { field := "price", type := "number", nullCount := 1, uniqueCount := 2
        sampleValues := [Cell.num 10, Cell.num 30]
        min := some 10, max := some 30, mean := some 20, median := some 20 } := by
  have hv : ((priceRows.map (fun r => getFieldR r "price")).filter (fun v => !v.isNullish))
      = [Cell.num 10, Cell.num 30] := by decide
  have hty : inferDataType pf [Cell.num 10, Cell.num 30] = "number" := by
    unfold inferDataType
    have h0 : ([Cell.num 10, Cell.num 30] : List Cell).isEmpty = false := rfl
    rw [h0]
    simp only [Bool.false_eq_true, if_false]
    have h1 : List.countP Cell.isFiniteNumber (List.take 10 [Cell.num 10, Cell.num 30]) = 2 := rfl
    have h4 : (List.take 10 ([Cell.num 10, Cell.num 30] : List Cell)).length = 2 := rfl
    rw [h1, h4]
    norm_num
  simp only [analyzeColumnData]
  rw [hv]
  have hmatch : (match priceCol.type with
      | Cell.str s => if s = "" then inferDataType pf [Cell.num 10, Cell.num 30] else s
      | _ => inferDataType pf [Cell.num 10, Cell.num 30]) = "number" := hty
  rw [hmatch]
  have hnum : numericOf [Cell.num 10, Cell.num 30] = [(10 : ℚ), 30] := rfl
  rw [hnum]
  norm_num [dedupKeepFirst, listMin, listMax, medianOf, List.insertionSort, List.orderedInsert]
  rw [if_neg (by decide : ¬("number" = "text"))]
  rfl

/-- Claim C9: summarize reports, for each declared column, nullCount equal
to the number of rows whose value at the column's field is null or
undefined, and overall completeness equal to
100 × (1 − totalNulls/(N×C)) rounded to 2 decimal places (for a grid with
at least one cell); for the concrete grid with one column price and rows
10 / null / 30 the analysis reports type number, nullCount 1, min 10,
max 30 and mean 20, for every date parser. -/
theorem C9_summary (pf : String → Bool) (gid : String) (defs : List ColumnDefV)
    (rows : List Row) (hpos : 0 < rows.length * defs.length) :
    ((summaryStatsCore pf gid defs rows).totalRows = rows.length
      ∧ (summaryStatsCore pf gid defs rows).totalColumns = defs.length
      ∧ (∀ j, j < defs.length →
          ((summaryStatsCore pf gid defs rows).columnStats.getD j
              { field := "", type := "", nullCount := 0, uniqueCount := 0
                sampleValues := [] }).nullCount
            = nullsInColumn rows (defs.getD j {}))
      ∧ (summaryStatsCore pf gid defs rows).completeness
          = jsRound2 (100 * (1 - (totalNullCells rows defs : ℚ)
              / ((rows.length * defs.length : ℕ) : ℚ))))
    ∧ (∀ pf2 : String → Bool,
        (analyzeColumnData pf2 priceRows "price" priceCol).type = "number"
          ∧ (analyzeColumnData pf2 priceRows "price" priceCol).nullCount = 1
          ∧ (analyzeColumnData pf2 priceRows "price" priceCol).min = some 10
          ∧ (analyzeColumnData pf2 priceRows "price" priceCol).max = some 30
          ∧ (analyzeColumnData pf2 priceRows "price" priceCol).mean = some 20) := by
  constructor
  · refine ⟨rfl, ?_, ?_, summaryStatsCore_completeness pf gid defs rows hpos⟩
    · show (List.map _ defs).length = defs.length
      exact List.length_map _ _
    · intro j hj
      rw [summaryStatsCore_columnStats]
      rw [List.getD_eq_getElem?_getD, List.getElem?_map, List.getElem?_eq_getElem hj]
      rw [List.getD_eq_getElem?_getD, List.getElem?_eq_getElem hj]
      simp only [Option.map_some', Option.getD_some]
      rw [analyzeColumnData_nullCount]
      rfl
  · intro pf2
    rw [analyze_price_concrete pf2]
    exact ⟨rfl, rfl, rfl, rfl, rfl⟩

/-- Claim C9 (witness): the theorem applied to the one-column price grid
with three rows, one of them null. -/
theorem C9_witness :
    (summaryStatsCore (fun _ => false) "g" [priceCol] priceRows).completeness
      = jsRound2 (100 * (1 - (totalNullCells priceRows [priceCol] : ℚ)
          / ((priceRows.length * ([priceCol] : List ColumnDefV).length : ℕ) : ℚ))) :=
  ((C9_summary (fun _ => false) "g" [priceCol] priceRows (by decide)).1).2.2.2

/-- Claim C10: readState derives its sort state from the column layout by
exactly the stated algorithm — the returned sortState is a permutation of
the projection of the column-state entries whose sort is non-null, it is
sorted by sort index ascending (missing indices defaulting to 0), and for
every key the subsequence of entries with that key keeps the original
insertion order (stable tie-break); and readState never mutates: the
registry is returned unchanged on every path and no sink event is
emitted. -/
theorem C10_readState_sort (g : Registry) (gridId : String) (inst : GridInstance)
    (h : getGridInstance g gridId = .ok inst) :
    (∀ rr : Except String SurfaceReadings,
        (getGridState g gridId rr).grids = g ∧ (getGridState g gridId rr).events = [])
      ∧ (∀ r : SurfaceReadings, ∃ st,
          (getGridState g gridId (.ok r)).result = .ok st
            ∧ st.sortState = sortStateOf r.columnState
            ∧ List.Perm st.sortState (sortSource r.columnState)
            ∧ List.Sorted sortLE st.sortState
            ∧ (∀ k : ℚ, st.sortState.filter (fun e => sortKey e == k)
                = (sortSource r.columnState).filter (fun e => sortKey e == k))) := by
  constructor
  · intro rr
    unfold getGridState
    rw [h]
    cases rr with
    | error e => exact ⟨rfl, rfl⟩
    | ok r => exact ⟨rfl, rfl⟩
  · intro r
    refine ⟨{ columnState := r.columnState, filterState := r.filterModel
              sortState := sortStateOf r.columnState, selectedRows := r.selectedRows
              rowCount := r.displayedRowCount
              displayedRowCount := r.displayedRowCount }, ?_, rfl, ?_, ?_, ?_⟩
    · unfold getGridState
      rw [h]
    · exact sortStateOf_perm r.columnState
    · exact sortStateOf_sorted r.columnState
    · intro k
      exact sortStateOf_stable r.columnState k

/-- Claim C10 (witness): the theorem applied to the live grid g1 and a
column-state reading containing an unsorted column and a tie on the sort
index. -/
theorem C10_witness :
    (getGridState demoRegistry "g1"
        (.ok { columnState := tiedColumnState, filterModel := []
               selectedRows := [], displayedRowCount := 0 })).grids = demoRegistry :=
  ((C10_readState_sort demoRegistry "g1" demoInstance (by decide)).1
    (.ok { columnState := tiedColumnState, filterModel := []
           selectedRows := [], displayedRowCount := 0 })).1
